import Mathlib

/-!
Shallow embedding of the vidchemy backend product pipeline code:
the mongoose `Product` model (`src/backend/src/shared/models/product.model.js`),
the `ProductService` (`src/backend/src/api/services/product.service.js`),
the `ProductController` and its routes, the `CustomError` class, the
global error handler, and the BullMQ `videoQueue` configuration.

The Mongo store is modelled as a list of documents; `updateOne` /
`deleteOne` touch the first matching document, `find` filters, and the
write concern is always acknowledged (the pure model has no driver
failures). Fallible service methods return `Except SvcError`.
-/

/-- Errors a service call can surface: `custom` mirrors the `CustomError`
class (fields `customMessage`, `statusCode`, statusCode defaulting to 500
at construction sites that omit it); `validationError` mirrors a mongoose
ValidationError raised by `document.save()`; `referenceError` mirrors a
JavaScript ReferenceError for an unbound identifier. -/
inductive SvcError where
  | custom (customMessage : String) (statusCode : Nat)
  | validationError (message : String)
  | referenceError (name : String)
deriving Repr, DecidableEq

/-- The enum values of `productSchema.processingStatus`:
`["pending", "queued", "processing", "completed", "failed"]`. -/
def statusEnum : List String := ["pending", "queued", "processing", "completed", "failed"]

/-- Input data offered to `new Product(productData)`: every schema field the
caller may supply. `none` stands for a JavaScript `undefined` field. -/
structure ProductData where
  user : Option String
  s3FileKey : Option String
  cdnUrl : Option String
  title : Option String
  description : Option String
  bulletPoints : List String
  searchTerms : List String
  suggestedCategory : Option String
  processingStatus : Option String
  jobId : Option String
  errorMessage : Option String
deriving Repr, DecidableEq

/-- A persisted `Product` document after a successful `save()`: the four
`required` fields (`user`, `s3FileKey`, `cdnUrl`, `jobId`) are present
non-empty strings, `processingStatus` holds an enum value (default
`"pending"`), everything else is optional exactly as in the schema. -/
structure ProductDoc where
  id : String
  user : String
  s3FileKey : String
  cdnUrl : String
  title : Option String
  description : Option String
  bulletPoints : List String
  searchTerms : List String
  suggestedCategory : Option String
  processingStatus : String
  jobId : String
  errorMessage : Option String
deriving Repr, DecidableEq

/-- JavaScript truthiness of an optional string: `undefined` and `""` are
falsy (mongoose `required` on a String path fails on both, and `if (!x)`
guards in the service behave the same way). -/
def truthyStr : Option String → Bool
  | none => false
  | some s => !(s == "")

/-- The mongoose `required` validators of `productSchema`: `user`,
`s3FileKey`, `cdnUrl` and `jobId` must be supplied and non-empty. -/
def requiredOk (d : ProductData) : Bool :=
  truthyStr d.user && truthyStr d.s3FileKey && truthyStr d.cdnUrl && truthyStr d.jobId

/-- The `processingStatus` value mongoose stores for input `d`: the supplied
value, or the schema default `"pending"` when the field is absent. -/
def effectiveStatus (d : ProductData) : String :=
  d.processingStatus.getD "pending"

/-- Validation run by `document.save()`: required paths plus the
`processingStatus` enum check. No other schema path carries a validator. -/
def saveValidates (d : ProductData) : Bool :=
  requiredOk d && statusEnum.contains (effectiveStatus d)

/-- The document mongoose builds from `productData` with a fresh `_id`. -/
def buildDoc (newId : String) (d : ProductData) : ProductDoc :=
  { id := newId
    user := d.user.getD ""
    s3FileKey := d.s3FileKey.getD ""
    cdnUrl := d.cdnUrl.getD ""
    title := d.title
    description := d.description
    bulletPoints := d.bulletPoints
    searchTerms := d.searchTerms
    suggestedCategory := d.suggestedCategory
    processingStatus := effectiveStatus d
    jobId := d.jobId.getD ""
    errorMessage := d.errorMessage }

/-- A Mongo collection of product documents. -/
abbrev Store := List ProductDoc

/-- Replace the four content fields of a creation input, leaving the
required fields and status untouched. -/
def withContent (d : ProductData) (t dsc : Option String) (bp st : List String) :
    ProductData :=
  { d with title := t, description := dsc, bulletPoints := bp, searchTerms := st }

namespace ProductService

/-- ProductService.getProductById: `Product.findById(id)`, throwing
`CustomError("Product not found", 404)` when no document matches. -/
def getProductById (store : Store) (id : String) : Except SvcError ProductDoc :=
  match store.find? (fun p => p.id == id) with
  | none => .error (.custom "Product not found" 404)
  | some p => .ok p

/-- Result shape of `ProductService.getProducts`. -/
structure GetProductsResult where
  products : List ProductDoc
  isMore : Bool
  totalProductCnt : Nat
deriving Repr, DecidableEq

/-- ProductService.getProducts: throws `CustomError("User id is required")`
(statusCode left at the constructor default 500) on a falsy `userId`;
otherwise pages `Product.find` with `skip(offset).limit(15)` and computes
`isMore = productCnt - offset > 15` over the signed difference. -/
def getProducts (store : Store) (userId : Option String) (offset : Nat) :
    Except SvcError GetProductsResult :=
  if !(truthyStr userId) then .error (.custom "User id is required" 500)
  else
    let uid := userId.getD ""
    let matching := store.filter (fun p => p.user == uid)
    let productCnt := matching.length
    .ok { products := (matching.drop offset).take 15
          isMore := decide ((productCnt : Int) - (offset : Int) > 15)
          totalProductCnt := productCnt }

/-- ProductService.createProduct: throws `CustomError("Product data is
required", 400)` on falsy input, otherwise `new Product(productData)` and
`save()`; a validation failure rejects the document, otherwise it is
appended to the collection and returned. -/
def createProduct (store : Store) (newId : String) (productData : Option ProductData) :
    Except SvcError (Store × ProductDoc) :=
  match productData with
  | none => .error (.custom "Product data is required" 400)
  | some d =>
      if saveValidates d then
        let doc := buildDoc newId d
        .ok (store ++ [doc], doc)
      else .error (.validationError "Product validation failed")

/-- The `$set: \x7bprocessingStatus\x7d` write of `Product.updateOne`: the
first document whose `_id` matches gets its `processingStatus` replaced
(update validators are off by default, so no enum check runs here). -/
def setStatusFirst : Store → String → String → Store
  | [], _, _ => []
  | p :: ps, id, st =>
      if p.id == id then { p with processingStatus := st } :: ps
      else p :: setStatusFirst ps id st

/-- ProductService.updateProcessingStatus: throws `CustomError(400)` on a
falsy status, `CustomError("Product not found", 404)` when `updateOne`
matched nothing, and otherwise overwrites `processingStatus` with the
given value unconditionally. -/
def updateProcessingStatus (store : Store) (id : String) (currentStatus : Option String) :
    Except SvcError Store :=
  if !(truthyStr currentStatus) then .error (.custom "Id and status are required" 400)
  else if store.any (fun p => p.id == id) then
    .ok (setStatusFirst store id (currentStatus.getD ""))
  else .error (.custom "Product not found" 404)

/-- The delete of `Product.deleteOne`: remove the first matching document. -/
def removeFirst : Store → String → Store
  | [], _ => []
  | p :: ps, id => if p.id == id then ps else p :: removeFirst ps id

/-- ProductService.deleteProduct: `Product.deleteOne` by `_id`, throwing
`CustomError("Product not found", 404)` when `deletedCount` is 0. -/
def deleteProduct (store : Store) (id : String) : Except SvcError Store :=
  if store.any (fun p => p.id == id) then .ok (removeFirst store id)
  else .error (.custom "Product not found" 404)

end ProductService

/-- BullMQ job options as configured on `videoQueue` in
`product.model.js` (the queue definition file): the fields of
`defaultJobOptions`. -/
structure JobOptions where
  attempts : Nat
  removeOnComplete : Bool
  removeOnFail : Bool
deriving Repr, DecidableEq

/-- The `video-processing-queue` configuration:
`attempts: 1, removeOnComplete: true, removeOnFail: false`. -/
def videoQueueDefaultJobOptions : JobOptions :=
  { attempts := 1, removeOnComplete := true, removeOnFail := false }

/-- BullMQ retry loop for one job (library semantics): run the processor;
on success stop; on failure retry only while the number of attempts made
is still below `opts.attempts`. `succeeds i` tells whether the i-th run of
the processor succeeds; the result counts how many runs happen. -/
def runsAux : Nat → Nat → Nat → (Nat → Bool) → Nat
  | 0, made, _, _ => made
  | fuel + 1, made, attempts, succeeds =>
      let made' := made + 1
      if succeeds made then made'
      else if made' < attempts then runsAux fuel made' attempts succeeds
      else made'

/-- Number of processor executions a single enqueued job receives under
job options `opts`, given the per-run outcomes. -/
def runsOfJob (opts : JobOptions) (succeeds : Nat → Bool) : Nat :=
  runsAux opts.attempts 0 opts.attempts succeeds

/-- Outcome of one controller handler invocation: either a JSON response
with an HTTP status code, a status string and a message, or `next(err)`
handing the error to the global error handler. -/
inductive HandlerOutcome where
  | responded (statusCode : Nat) (status : String) (message : String)
  | nextCalled (err : SvcError)
deriving Repr, DecidableEq

/-- Module-scope identifiers of `product.controller.js`: the file declares
only the class `ProductController` and imports nothing, so no other name
is bound at module scope. -/
def controllerModuleScope : List String := ["ProductController"]

/-- JavaScript identifier resolution at module scope: an identifier not in
scope raises a ReferenceError when evaluated. -/
def resolveName (scope : List String) (n : String) : Option Unit :=
  if scope.contains n then some () else none

namespace ProductController

/-- ProductController.getProduct: calls `this.productService.getProductById`
inside try/catch; a thrown error goes to `next(err)`, success answers
`200 \x7bstatus: "success", data, message\x7d`. -/
def getProduct (store : Store) (id : String) : HandlerOutcome :=
  match ProductService.getProductById store id with
  | .ok _ => .responded 200 "success" "Product fetched successfully"
  | .error e => .nextCalled e

/-- ProductController.updateStatus: calls
`this.productService.updateProcessingStatus(id, currentStatus)` inside
try/catch; errors go to `next(err)`. The store after the call is returned
alongside the outcome. -/
def updateStatus (store : Store) (id : String) (currentStatus : Option String) :
    HandlerOutcome × Store :=
  match ProductService.updateProcessingStatus store id currentStatus with
  | .ok store2 => (.responded 200 "success" "Processing status updated", store2)
  | .error e => (.nextCalled e, store)

/-- ProductController.deleteProduct: the body reads the free identifier
`productService` (not `this.productService`); evaluating it is guarded by
the module scope, and only if it resolves would
`ProductService.deleteProduct` run. A ReferenceError is caught by the
try/catch and forwarded to `next(err)`. -/
def deleteProduct (store : Store) (id : String) : HandlerOutcome × Store :=
  match resolveName controllerModuleScope "productService" with
  | none => (.nextCalled (.referenceError "productService"), store)
  | some _ =>
      match ProductService.deleteProduct store id with
      | .ok store2 => (.responded 200 "success" "Product deleted successfully", store2)
      | .error e => (.nextCalled e, store)

end ProductController

/-- Response shape produced by the global error handler. -/
structure ErrorResponse where
  statusCode : Nat
  status : String
  message : String
deriving Repr, DecidableEq

/-- The `err.statusCode || 500` read: only a `CustomError` carries a
`statusCode`, and a falsy (zero) code falls back to 500. -/
def errStatusCode : SvcError → Nat
  | .custom _ c => if c == 0 then 500 else c
  | _ => 500

/-- The `err.customMessage || default` read: only a `CustomError` carries a
`customMessage`; empty or absent falls back to the generic message. -/
def errMessage : SvcError → String
  | .custom m _ => if m == "" then "Something went wrong, try again later" else m
  | _ => "Something went wrong, try again later"

/-- globalErrorHandler from `error-handler.util.js`: fills `statusCode`
(default 500), sets `status` to `"fail"` when the code's decimal string
starts with the digit 4 and `"error"` otherwise, and answers with the
custom message or the generic one. -/
def globalErrorHandler (err : SvcError) : ErrorResponse :=
  let code := errStatusCode err
  { statusCode := code
    status := if (toString code).data.head? == some '4' then "fail" else "error"
    message := errMessage err }

/-- A stored job record that already reached the terminal success status
`"completed"`, with a full content payload. -/
def docCompleted : ProductDoc :=
  { id := "p1", user := "u1", s3FileKey := "k1", cdnUrl := "c1", title := some "T"
    description := some "D", bulletPoints := ["b"], searchTerms := ["s"]
    suggestedCategory := none, processingStatus := "completed", jobId := "j1"
    errorMessage := none }

/-- A stored job record still in the schema-default status `"pending"`. -/
def docPending : ProductDoc :=
  { id := "p6", user := "u6", s3FileKey := "k6", cdnUrl := "c6", title := none
    description := none, bulletPoints := [], searchTerms := []
    suggestedCategory := none, processingStatus := "pending", jobId := "j6"
    errorMessage := none }

/-- Creation input carrying all required fields and no explicit
`processingStatus`, as ingestion would submit it. -/
def jobDataNoStatus : ProductData :=
  { user := some "u1", s3FileKey := some "k1", cdnUrl := some "c1", title := none
    description := none, bulletPoints := [], searchTerms := [], suggestedCategory := none
    processingStatus := none, jobId := some "j1", errorMessage := none }

/-- Creation input marked `"completed"` whose four content fields (title,
description, bulletPoints, searchTerms) are all missing or empty. -/
def contentlessData : ProductData :=
  { user := some "u2", s3FileKey := some "k2", cdnUrl := some "c2", title := none
    description := none, bulletPoints := [], searchTerms := [], suggestedCategory := none
    processingStatus := some "completed", jobId := some "j2", errorMessage := none }

/-- Creation input with all required fields, no explicit status. -/
def ingestData : ProductData :=
  { user := some "u4", s3FileKey := some "k4", cdnUrl := some "c4", title := none
    description := none, bulletPoints := [], searchTerms := [], suggestedCategory := none
    processingStatus := none, jobId := some "j4", errorMessage := none }

/-- Creation input that supplies an `errorMessage` while the status defaults
to `"pending"`. -/
def erroredPendingData : ProductData :=
  { user := some "u5", s3FileKey := some "k5", cdnUrl := some "c5", title := none
    description := none, bulletPoints := [], searchTerms := [], suggestedCategory := none
    processingStatus := none, jobId := some "j5", errorMessage := some "boom" }

/-- Helper: a `\x24set` of `processingStatus` past a prefix of non-matching
documents rewrites exactly the first match. -/
theorem setStatusFirst_append_of_not_match (pre post : Store) (p : ProductDoc) (s : String)
    (hpre : ∀ q ∈ pre, (q.id == p.id) = false) :
    ProductService.setStatusFirst (pre ++ p :: post) p.id s =
      pre ++ { p with processingStatus := s } :: post := by
  induction pre with
  | nil => simp [ProductService.setStatusFirst]
  | cons q qs ih =>
      have hq : (q.id == p.id) = false := hpre q (by simp)
      simp only [List.cons_append, ProductService.setStatusFirst, hq, Bool.false_eq_true,
        if_false]
      exact congrArg (q :: ·) (ih fun r hr => hpre r (by simp [hr]))

/-- Helper: the status write never touches `errorMessage`. -/
theorem setStatusFirst_map_errorMessage (store : Store) (id s : String) :
    (ProductService.setStatusFirst store id s).map (fun p => p.errorMessage) =
      store.map (fun p => p.errorMessage) := by
  induction store with
  | nil => rfl
  | cons p ps ih =>
      by_cases hp : (p.id == id) = true <;>
        simp [ProductService.setStatusFirst, hp, ih]

/-- Helper: the status write preserves the collection size. -/
theorem setStatusFirst_length (store : Store) (id s : String) :
    (ProductService.setStatusFirst store id s).length = store.length := by
  induction store with
  | nil => rfl
  | cons p ps ih =>
      by_cases hp : (p.id == id) = true <;>
        simp [ProductService.setStatusFirst, hp, ih]

/-- C1 counterexample: the claim that a status write against an
already-terminal record is a no-op is false. `updateProcessingStatus` on a
record whose status is the terminal `"completed"` overwrites it with
`"processing"`, so the status reverts. -/
theorem C1_counterexample :
    docCompleted.processingStatus = "completed" ∧
    ProductService.updateProcessingStatus [docCompleted] "p1" (some "processing") =
      .ok [{ docCompleted with processingStatus := "processing" }] ∧
    ({ docCompleted with processingStatus := "processing" } : ProductDoc).processingStatus ≠
      docCompleted.processingStatus :=
  ⟨rfl, rfl, by decide⟩

/-- C1 amended: `updateProcessingStatus` performs no terminal-state check:
for every matched record — terminal or not — and every non-empty status
value, it unconditionally overwrites the record's `processingStatus` with
that value, so a status can transition any number of times and revert. -/
theorem C1_update_overwrites_any_state (pre post : Store) (p : ProductDoc) (s : String)
    (hs : s ≠ "") (hpre : ∀ q ∈ pre, (q.id == p.id) = false) :
    ProductService.updateProcessingStatus (pre ++ p :: post) p.id (some s) =
      .ok (pre ++ { p with processingStatus := s } :: post) := by
  have hs' : (s == "") = false := beq_eq_false_iff_ne.mpr hs
  have hany : ((pre ++ p :: post).any fun q => q.id == p.id) = true := by
    simp [List.any_append]
  simp only [ProductService.updateProcessingStatus, truthyStr, hs', Bool.not_false,
    Bool.not_true, hany, if_true, if_false, Option.getD_some]
  exact congrArg Except.ok (setStatusFirst_append_of_not_match pre post p s hpre)

/-- C1 witness: the amended statement applied to a concrete store holding
one `"completed"` record, overwritten to `"failed"`. -/
theorem C1_witness :
    ProductService.updateProcessingStatus [docCompleted] docCompleted.id (some "failed") =
      .ok [{ docCompleted with processingStatus := "failed" }] :=
  C1_update_overwrites_any_state [] [] docCompleted "failed" (by decide) (by simp)

/-- C2 counterexample: the claim that a Product record exists iff the job's
status is SUCCESS is false. `createProduct` on valid ingestion data with no
explicit status stores a Product whose status is neither `"completed"` nor
`"failed"`, so the record exists while the job is non-terminal. -/
theorem C2_counterexample :
    ProductService.createProduct [] "p1" (some jobDataNoStatus) =
      .ok ([buildDoc "p1" jobDataNoStatus], buildDoc "p1" jobDataNoStatus) ∧
    (buildDoc "p1" jobDataNoStatus).processingStatus ≠ "completed" ∧
    (buildDoc "p1" jobDataNoStatus).processingStatus ≠ "failed" :=
  ⟨rfl, by decide, by decide⟩

/-- C2 amended: the Product document is itself the job record and exists
from creation onward regardless of status: whenever the required fields
validate and no explicit status is supplied, `createProduct` stores the
record with the non-success status `"pending"`, so product existence does
not imply success. -/
theorem C2_product_exists_without_success (store : Store) (newId : String) (d : ProductData)
    (hreq : requiredOk d = true) (hst : d.processingStatus = none) :
    ∃ doc, ProductService.createProduct store newId (some d) = .ok (store ++ [doc], doc) ∧
      doc ∈ store ++ [doc] ∧ doc.processingStatus = "pending" ∧
      doc.processingStatus ≠ "completed" := by
  have heff : effectiveStatus d = "pending" := by simp [effectiveStatus, hst]
  have hval : saveValidates d = true := by simp [saveValidates, hreq, heff, statusEnum]
  refine ⟨buildDoc newId d, ?_, by simp, ?_, ?_⟩
  · simp [ProductService.createProduct, hval]
  · simpa [buildDoc] using heff
  · simp [buildDoc, heff]

/-- C2 witness: the amended statement applied to the concrete ingestion
input `jobDataNoStatus` on an empty collection. -/
theorem C2_witness :
    ∃ doc, ProductService.createProduct [] "pw2" (some jobDataNoStatus) =
        .ok ([] ++ [doc], doc) ∧
      doc ∈ [] ++ [doc] ∧ doc.processingStatus = "pending" ∧
      doc.processingStatus ≠ "completed" :=
  C2_product_exists_without_success [] "pw2" jobDataNoStatus (by decide) rfl

/-- C3 counterexample: the claim that a result persisted on success always
has non-empty title, description, keywords and bulletPoints — and that an
input missing any of them is rejected — is false. A document marked
`"completed"` with all four content fields missing or empty passes
validation and is stored. -/
theorem C3_counterexample :
    ProductService.createProduct [] "p2" (some contentlessData) =
      .ok ([buildDoc "p2" contentlessData], buildDoc "p2" contentlessData) ∧
    (buildDoc "p2" contentlessData).processingStatus = "completed" ∧
    (buildDoc "p2" contentlessData).title = none ∧
    (buildDoc "p2" contentlessData).description = none ∧
    (buildDoc "p2" contentlessData).bulletPoints = [] ∧
    (buildDoc "p2" contentlessData).searchTerms = [] :=
  ⟨rfl, rfl, rfl, rfl, rfl, rfl⟩

/-- C3 amended: only `user`, `s3FileKey`, `cdnUrl` and `jobId` are
validated at creation; the content fields (title, description,
bulletPoints, searchTerms) carry no validator, are stored exactly as
given — empty or missing included — and changing them never alters the
validation verdict. -/
theorem C3_content_fields_unvalidated (store : Store) (newId : String) (d : ProductData)
    (hval : saveValidates d = true) :
    ∃ doc, ProductService.createProduct store newId (some d) = .ok (store ++ [doc], doc) ∧
      doc.title = d.title ∧ doc.description = d.description ∧
      doc.bulletPoints = d.bulletPoints ∧ doc.searchTerms = d.searchTerms ∧
      ∀ t dsc bp st, saveValidates (withContent d t dsc bp st) = true := by
  refine ⟨buildDoc newId d, ?_, rfl, rfl, rfl, rfl, fun t dsc bp st => ?_⟩
  · simp [ProductService.createProduct, hval]
  · exact hval

/-- C3 witness: the amended statement applied to the concrete contentless
input on an empty collection. -/
theorem C3_witness :
    ∃ doc, ProductService.createProduct [] "pw3" (some contentlessData) =
        .ok ([] ++ [doc], doc) ∧
      doc.title = contentlessData.title ∧ doc.description = contentlessData.description ∧
      doc.bulletPoints = contentlessData.bulletPoints ∧
      doc.searchTerms = contentlessData.searchTerms ∧
      ∀ t dsc bp st, saveValidates (withContent contentlessData t dsc bp st) = true :=
  C3_content_fields_unvalidated [] "pw3" contentlessData (by decide)

/-- C4 counterexample: the claim that a newly created record with no
explicit status starts in the processing state is false: the stored status
is the schema default `"pending"`, not `"processing"`. -/
theorem C4_counterexample :
    ProductService.createProduct [] "p4" (some ingestData) =
      .ok ([buildDoc "p4" ingestData], buildDoc "p4" ingestData) ∧
    (buildDoc "p4" ingestData).processingStatus = "pending" ∧
    (buildDoc "p4" ingestData).processingStatus ≠ "processing" :=
  ⟨rfl, rfl, by decide⟩

/-- C4 amended: every record created with valid required fields and no
explicit `processingStatus` is stored with the schema default `"pending"`
(the pre-processing state), not `"processing"`. -/
theorem C4_new_record_defaults_pending (store : Store) (newId : String) (d : ProductData)
    (hreq : requiredOk d = true) (hst : d.processingStatus = none) :
    ∃ doc, ProductService.createProduct store newId (some d) = .ok (store ++ [doc], doc) ∧
      doc.processingStatus = "pending" ∧ doc.processingStatus ≠ "processing" := by
  have heff : effectiveStatus d = "pending" := by simp [effectiveStatus, hst]
  have hval : saveValidates d = true := by simp [saveValidates, hreq, heff, statusEnum]
  refine ⟨buildDoc newId d, ?_, ?_, ?_⟩
  · simp [ProductService.createProduct, hval]
  · simpa [buildDoc] using heff
  · simp [buildDoc, heff]

/-- C4 witness: the amended statement applied to the concrete ingestion
input `ingestData` on an empty collection. -/
theorem C4_witness :
    ∃ doc, ProductService.createProduct [] "pw4" (some ingestData) =
        .ok ([] ++ [doc], doc) ∧
      doc.processingStatus = "pending" ∧ doc.processingStatus ≠ "processing" :=
  C4_new_record_defaults_pending [] "pw4" ingestData (by decide) rfl

/-- C5 counterexample: the claim that `errorMessage` is non-null iff the
status is FAILED is false in both directions: creation stores an
`errorMessage` on a `"pending"` record, and a status transition to
`"failed"` via `updateProcessingStatus` leaves `errorMessage` null. -/
theorem C5_counterexample :
    (ProductService.createProduct [] "p5" (some erroredPendingData) =
        .ok ([buildDoc "p5" erroredPendingData], buildDoc "p5" erroredPendingData) ∧
      (buildDoc "p5" erroredPendingData).errorMessage = some "boom" ∧
      (buildDoc "p5" erroredPendingData).processingStatus = "pending") ∧
    (ProductService.updateProcessingStatus [docPending] "p6" (some "failed") =
        .ok [{ docPending with processingStatus := "failed" }] ∧
      ({ docPending with processingStatus := "failed" } : ProductDoc).errorMessage = none) :=
  ⟨⟨rfl, rfl, rfl⟩, rfl, rfl⟩

/-- C5 amended: `errorMessage` is decoupled from status: the status-update
operation never touches `errorMessage` (in particular a transition to
`"failed"` records no message), and the schema accepts an `errorMessage`
on a record of any status. -/
theorem C5_status_update_preserves_errorMessage (store store2 : Store) (id s : String)
    (h : ProductService.updateProcessingStatus store id (some s) = .ok store2) :
    store2.map (fun p => p.errorMessage) = store.map (fun p => p.errorMessage) ∧
    store2.length = store.length := by
  unfold ProductService.updateProcessingStatus at h
  split at h
  · exact absurd h (by simp)
  · split at h
    · simp only [Except.ok.injEq] at h
      subst h
      exact ⟨setStatusFirst_map_errorMessage store id _,
        setStatusFirst_length store id _⟩
    · exact absurd h (by simp)

/-- C5 witness: the amended statement applied to a concrete one-record
store transitioned to `"failed"`. -/
theorem C5_witness :
    ([{ docPending with processingStatus := "queued" }] : Store).map
        (fun p => p.errorMessage) = ([docPending] : Store).map (fun p => p.errorMessage) ∧
    ([{ docPending with processingStatus := "queued" }] : Store).length =
      ([docPending] : Store).length :=
  C5_status_update_preserves_errorMessage [docPending]
    [{ docPending with processingStatus := "queued" }] "p6" "queued" rfl

/-- C6 confirmed: the `video-processing-queue` is configured with
`attempts: 1`, so under the BullMQ retry loop every enqueued job's
processor runs exactly once, whatever the run outcomes are — a failed run
is never automatically re-executed. -/
theorem C6_single_attempt (succeeds : Nat → Bool) :
    videoQueueDefaultJobOptions.attempts = 1 ∧
    runsOfJob videoQueueDefaultJobOptions succeeds = 1 := by
  refine ⟨rfl, ?_⟩
  simp [runsOfJob, runsAux, videoQueueDefaultJobOptions]

/-- C7 counterexample: the claim that the stage/status write is best-effort
and raises no error to its caller is false: on a store with no matching
record, `updateProcessingStatus` throws `CustomError("Product not found",
404)`. -/
theorem C7_counterexample :
    ProductService.updateProcessingStatus [] "missing" (some "processing") =
      .error (.custom "Product not found" 404) := rfl

/-- C7 amended: `updateProcessingStatus` is not best-effort: whenever the
record is not found it raises a 404 `CustomError` to its caller, and the
controller forwards that error to `next(err)` instead of continuing. -/
theorem C7_update_status_throws (store : Store) (id s : String) (hs : s ≠ "")
    (hmatch : (store.any fun p => p.id == id) = false) :
    ProductService.updateProcessingStatus store id (some s) =
      .error (.custom "Product not found" 404) ∧
    ProductController.updateStatus store id (some s) =
      (.nextCalled (.custom "Product not found" 404), store) := by
  have hs' : (s == "") = false := beq_eq_false_iff_ne.mpr hs
  have hsvc : ProductService.updateProcessingStatus store id (some s) =
      .error (.custom "Product not found" 404) := by
    simp [ProductService.updateProcessingStatus, truthyStr, hs', hmatch]
  exact ⟨hsvc, by simp [ProductController.updateStatus, hsvc]⟩

/-- C7 witness: the amended statement applied to an empty store and the
status value `"processing"`. -/
theorem C7_witness :
    ProductService.updateProcessingStatus [] "p9" (some "processing") =
      .error (.custom "Product not found" 404) ∧
    ProductController.updateStatus [] "p9" (some "processing") =
      (.nextCalled (.custom "Product not found" 404), []) :=
  C7_update_status_throws [] "p9" "processing" (by decide) rfl

/-- C8 confirmed: for an id with no matching record, `getProductById`
throws `CustomError("Product not found", 404)`, the controller forwards it
to `next(err)`, and the global error handler classifies it as a 404
`"fail"` response; for a present id the stored record itself is
returned. -/
theorem C8_getProductById_spec (store : Store) (id : String) :
    ((store.find? fun p => p.id == id) = none →
      ProductService.getProductById store id = .error (.custom "Product not found" 404) ∧
      ProductController.getProduct store id = .nextCalled (.custom "Product not found" 404) ∧
      globalErrorHandler (.custom "Product not found" 404) =
        { statusCode := 404, status := "fail", message := "Product not found" }) ∧
    ∀ p, (store.find? fun q => q.id == id) = some p →
      ProductService.getProductById store id = .ok p := by
  constructor
  · intro hnone
    have hsvc : ProductService.getProductById store id =
        .error (.custom "Product not found" 404) := by
      simp [ProductService.getProductById, hnone]
    exact ⟨hsvc, by simp [ProductController.getProduct, hsvc], by decide⟩
  · intro p hp
    simp [ProductService.getProductById, hp]

/-- C8 witness: the theorem applied to the empty store (not-found branch)
and to a one-record store (found branch). -/
theorem C8_witness :
    (ProductService.getProductById [] "nope" = .error (.custom "Product not found" 404) ∧
      ProductController.getProduct [] "nope" = .nextCalled (.custom "Product not found" 404) ∧
      globalErrorHandler (.custom "Product not found" 404) =
        { statusCode := 404, status := "fail", message := "Product not found" }) ∧
    ProductService.getProductById [docPending] "p6" = .ok docPending :=
  ⟨(C8_getProductById_spec [] "nope").1 rfl,
    (C8_getProductById_spec [docPending] "p6").2 docPending rfl⟩

/-- C9 confirmed: `getProducts` pages with skip/limit — it returns exactly
the window of up to 15 matching records after the first `offset`, reports
the full matching count, and sets `isMore` exactly when the signed
difference `count - offset` exceeds 15; an absent `userId` raises the
`CustomError` constructor default, statusCode 500. -/
theorem C9_getProducts_spec (store : Store) (userId : String) (offset : Nat)
    (h : userId ≠ "") :
    ProductService.getProducts store none offset =
      .error (.custom "User id is required" 500) ∧
    ∃ r, ProductService.getProducts store (some userId) offset = .ok r ∧
      r.products = ((store.filter fun p => p.user == userId).drop offset).take 15 ∧
      r.products.length ≤ 15 ∧
      r.totalProductCnt = (store.filter fun p => p.user == userId).length ∧
      (r.isMore = true ↔
        ((store.filter fun p => p.user == userId).length : Int) - (offset : Int) > 15) := by
  have h' : (userId == "") = false := beq_eq_false_iff_ne.mpr h
  refine ⟨rfl, ?_⟩
  have hok : ProductService.getProducts store (some userId) offset =
      .ok { products := ((store.filter fun p => p.user == userId).drop offset).take 15
            isMore := decide
              (((store.filter fun p => p.user == userId).length : Int) - (offset : Int) > 15)
            totalProductCnt := (store.filter fun p => p.user == userId).length } := by
    simp [ProductService.getProducts, truthyStr, h']
  refine ⟨_, hok, rfl, ?_, rfl, ?_⟩
  · show (((store.filter fun p => p.user == userId).drop offset).take 15).length ≤ 15
    have hlen := List.length_take 15 ((store.filter fun p => p.user == userId).drop offset)
    omega
  · simp

/-- C9 witness: the theorem applied to a concrete store of one record for
user `"u6"`, with offset 0. -/
theorem C9_witness :
    ProductService.getProducts [docPending] none 0 =
      .error (.custom "User id is required" 500) ∧
    ∃ r, ProductService.getProducts [docPending] (some "u6") 0 = .ok r ∧
      r.products = ((([docPending] : Store).filter fun p => p.user == "u6").drop 0).take 15 ∧
      r.products.length ≤ 15 ∧
      r.totalProductCnt = (([docPending] : Store).filter fun p => p.user == "u6").length ∧
      (r.isMore = true ↔
        ((([docPending] : Store).filter fun p => p.user == "u6").length : Int) -
          ((0 : Nat) : Int) > 15) :=
  C9_getProducts_spec [docPending] "u6" 0 (by decide)

/-- C10 confirmed: the controller's deleteProduct handler reads the unbound
identifier `productService`, which is not in the module scope, so every
invocation raises a ReferenceError that the catch block hands to
`next(err)`; the store is left untouched, i.e.
`ProductService.deleteProduct` never runs through this route. -/
theorem C10_delete_handler_always_fails (store : Store) (id : String) :
    ProductController.deleteProduct store id =
      (.nextCalled (.referenceError "productService"), store) ∧
    resolveName controllerModuleScope "productService" = none :=
  ⟨rfl, rfl⟩
